import Mathlib

/-!
# Verification of the notification dispatch service

A shallow embedding of the notification service core
(`src/services/NotificationService.ts`, `src/controllers/NotificationController.ts`,
`src/models/FCMToken.ts`, `src/models/NotificationPreferences.ts`).

The stores (Mongo collections) are modelled as explicit values threaded through
the operations; the push transport (FCM `sendEachForMulticast`) is modelled by
an environment that supplies the per-token outcomes; fallible I/O steps
(`updateMany`, `deleteMany`, `find`, the transport call, `createDefault`) are
given explicit failure switches in the environment so that the catch/rethrow
structure of the TypeScript is visible in the `Except` result.
-/

namespace NotifService

/-- A JavaScript value arriving in a string-typed position.  `nonString`
covers `undefined`, `null` and every other non-string value, which the
service detects with `!userId || typeof userId !== 'string'`. -/
inductive StrArg where
  | str (s : String)
  | nonString
deriving DecidableEq, Repr

/-- `userId.trim() === ''`: trimming leaves nothing exactly when every
character is whitespace. -/
def isBlank (s : String) : Bool :=
  s.data.all Char.isWhitespace

/-- The userId validation used by `shouldSendNotification`, `getPreferences`
and `updatePreferences`:
`!userId || typeof userId !== 'string' || userId.trim() === ''`. -/
def invalidUserId : StrArg → Bool
  | .nonString => true
  | .str s => s.isEmpty || isBlank s

/-- Equality test of a (possibly non-string) userId argument against a stored
string field, as used by the Mongo query `{ userId }`. -/
def StrArg.matchesStr : StrArg → String → Bool
  | .str s, t => s = t
  | .nonString, _ => false

/-- Notification category (`keyof NotificationPreferences`). -/
inductive Category where
  | transactional
  | taskUpdates
  | taskReminders
  | keywordTaskAlerts
  | recommendedTaskAlerts
  | helpfulInformation
  | updatesNewsletters
deriving DecidableEq, Repr

/-- Delivery channel. -/
inductive Channel where
  | push
  | email
  | sms
deriving DecidableEq, Repr

/-- Channel flags of a category that exposes all of email/push/sms. -/
structure ChannelPrefs where
  email : Bool
  push : Bool
  sms : Bool
deriving DecidableEq, Repr

/-- Channel flags of the push-only categories
(`keywordTaskAlerts`, `recommendedTaskAlerts`). -/
structure PushPrefs where
  push : Bool
deriving DecidableEq, Repr

/-- A stored `NotificationPreferences` record.  The Mongoose schema gives every
category sub-document a default, so a stored record always carries all seven
categories; the defensive `if (!categoryPrefs)` branch of
`shouldSendNotification` is unreachable for schema-conforming records and is
therefore not represented. -/
structure Prefs where
  transactional : ChannelPrefs
  taskUpdates : ChannelPrefs
  taskReminders : ChannelPrefs
  keywordTaskAlerts : PushPrefs
  recommendedTaskAlerts : PushPrefs
  helpfulInformation : ChannelPrefs
  updatesNewsletters : ChannelPrefs
deriving DecidableEq, Repr

/-- The default preference record created by
`NotificationPreferencesSchema.statics.createDefault`. -/
def defaultPrefs : Prefs where
  transactional := { email := false, push := true, sms := true }
  taskUpdates := { email := true, push := true, sms := true }
  taskReminders := { email := true, push := true, sms := true }
  keywordTaskAlerts := { push := true }
  recommendedTaskAlerts := { push := true }
  helpfulInformation := { email := true, push := true, sms := true }
  updatesNewsletters := { email := true, push := true, sms := true }

/-- The category sub-object as the dynamic lookup
`preferences[category]` sees it: either a full three-channel object or a
push-only object. -/
inductive CatPrefs where
  | full (c : ChannelPrefs)
  | pushOnly (p : PushPrefs)
deriving DecidableEq, Repr

/-- `preferences[category]`. -/
def categoryPrefs (p : Prefs) : Category → CatPrefs
  | .transactional => .full p.transactional
  | .taskUpdates => .full p.taskUpdates
  | .taskReminders => .full p.taskReminders
  | .keywordTaskAlerts => .pushOnly p.keywordTaskAlerts
  | .recommendedTaskAlerts => .pushOnly p.recommendedTaskAlerts
  | .helpfulInformation => .full p.helpfulInformation
  | .updatesNewsletters => .full p.updatesNewsletters

/-- Reading `.push` off the category object, as the cast
`(categoryPrefs as { push: boolean }).push` does. -/
def CatPrefs.pushFlag : CatPrefs → Bool
  | .full c => c.push
  | .pushOnly p => p.push

/-- `categoryPrefs[channel]` for a full three-channel object. -/
def ChannelPrefs.flag (c : ChannelPrefs) : Channel → Bool
  | .push => c.push
  | .email => c.email
  | .sms => c.sms

/-- The decision taken by `shouldSendNotification` once a preference record is
in hand (lines 110-129 of the service): push-only categories answer
`channel === 'push' && categoryPrefs.push === true`; other categories answer
the requested channel's flag when the object exposes all three channels, and
`false` otherwise. -/
def decideFromPrefs (p : Prefs) (category : Category) (channel : Channel) : Bool :=
  let cp := categoryPrefs p category
  if category = .keywordTaskAlerts ∨ category = .recommendedTaskAlerts then
    channel = .push && cp.pushFlag
  else
    match cp with
    | .full c => c.flag channel
    | .pushOnly _ => false

/-- Outcome of the `createDefault` call: success, a duplicate-key race
(Mongo error code 11000), or any other storage error. -/
inductive CreateOutcome where
  | ok
  | dupKey
  | otherError
deriving DecidableEq, Repr

/-- Environment of one preference-store interaction: what `findOne` returns,
how `createDefault` behaves, and what a re-`findOne` after a duplicate-key
error returns. -/
structure PrefEnv where
  stored : Option Prefs
  createOutcome : CreateOutcome
  refetched : Option Prefs
deriving DecidableEq, Repr

/-- Observable preference-store accesses, recorded so that "does not consult
the store" claims are statable. -/
inductive PrefEffect where
  | findOne
  | createDefault
deriving DecidableEq, Repr

/-- `NotificationService.shouldSendNotification`.  Returns the boolean
decision together with the trace of store accesses.  Invalid user ids fail
closed before any store access; a missing record is lazily created (the
duplicate-key race re-fetches); if no record is obtainable, or the store
errors, the gate fails open (`true`). -/
def shouldSendNotification (userId : StrArg) (category : Category) (channel : Channel)
    (env : PrefEnv) : Bool × List PrefEffect :=
  if invalidUserId userId then
    (false, [])
  else
    match env.stored with
    | some p => (decideFromPrefs p category channel, [.findOne])
    | none =>
      match env.createOutcome with
      | .ok => (decideFromPrefs defaultPrefs category channel, [.findOne, .createDefault])
      | .dupKey =>
        match env.refetched with
        | some p => (decideFromPrefs p category channel, [.findOne, .createDefault, .findOne])
        | none => (true, [.findOne, .createDefault, .findOne])
      | .otherError => (true, [.findOne, .createDefault])

/-- `NotificationService.getPreferences`.  Invalid user ids get the
fully-documented default object back with no store access; otherwise the
record is fetched (lazily created), and an unexpected creation error is
wrapped and rethrown (`.error`). -/
def getPreferences (userId : StrArg) (env : PrefEnv) :
    Except Unit (Prefs × List PrefEffect) :=
  if invalidUserId userId then
    .ok (defaultPrefs, [])
  else
    match env.stored with
    | some p => .ok (p, [.findOne])
    | none =>
      match env.createOutcome with
      | .ok => .ok (defaultPrefs, [.findOne, .createDefault])
      | .dupKey =>
        match env.refetched with
        | some p => .ok (p, [.findOne, .createDefault, .findOne])
        | none => .ok (defaultPrefs, [.findOne, .createDefault, .findOne])
      | .otherError => .error ()

/-- A partial three-channel object in a `Partial<NotificationPreferences>`
update: each present field overrides, each absent field is kept. -/
structure PartialChannelPrefs where
  email : Option Bool
  push : Option Bool
  sms : Option Bool
deriving DecidableEq, Repr

/-- A partial push-only object. -/
structure PartialPushPrefs where
  push : Option Bool
deriving DecidableEq, Repr

/-- A `Partial<NotificationPreferences>` body.  `none` for a category means
the key is absent (or falsy), so its `if (preferences.category)` guard is
skipped. -/
structure PartialPrefs where
  transactional : Option PartialChannelPrefs
  taskUpdates : Option PartialChannelPrefs
  taskReminders : Option PartialChannelPrefs
  keywordTaskAlerts : Option PartialPushPrefs
  recommendedTaskAlerts : Option PartialPushPrefs
  helpfulInformation : Option PartialChannelPrefs
  updatesNewsletters : Option PartialChannelPrefs
deriving DecidableEq, Repr

/-- The spread `{ ...old, ...incoming }` on a three-channel object. -/
def mergeChannel (old : ChannelPrefs) (inc : PartialChannelPrefs) : ChannelPrefs where
  email := inc.email.getD old.email
  push := inc.push.getD old.push
  sms := inc.sms.getD old.sms

/-- The spread `{ ...old, ...incoming }` on a push-only object. -/
def mergePush (old : PushPrefs) (inc : PartialPushPrefs) : PushPrefs where
  push := inc.push.getD old.push

/-- The per-category update block of `updatePreferences` (lines 430-480):
each category present in the body is spread over the stored one, and
`transactional.push` is forced back to `true` right after the
transactional spread. -/
def applyUpdate (old : Prefs) (u : PartialPrefs) : Prefs where
  transactional :=
    match u.transactional with
    | some inc => { mergeChannel old.transactional inc with push := true }
    | none => old.transactional
  taskUpdates :=
    match u.taskUpdates with
    | some inc => mergeChannel old.taskUpdates inc
    | none => old.taskUpdates
  taskReminders :=
    match u.taskReminders with
    | some inc => mergeChannel old.taskReminders inc
    | none => old.taskReminders
  keywordTaskAlerts :=
    match u.keywordTaskAlerts with
    | some inc => mergePush old.keywordTaskAlerts inc
    | none => old.keywordTaskAlerts
  recommendedTaskAlerts :=
    match u.recommendedTaskAlerts with
    | some inc => mergePush old.recommendedTaskAlerts inc
    | none => old.recommendedTaskAlerts
  helpfulInformation :=
    match u.helpfulInformation with
    | some inc => mergeChannel old.helpfulInformation inc
    | none => old.helpfulInformation
  updatesNewsletters :=
    match u.updatesNewsletters with
    | some inc => mergeChannel old.updatesNewsletters inc
    | none => old.updatesNewsletters

/-- Does the update body mention any category at all?  When the record is
unobtainable (`userPreferences` is `null`) a mentioned category makes the
non-null-asserted property write throw; an empty body skips every guard,
the optional-chained `save()` is a no-op and the response falls back to the
documented defaults. -/
def PartialPrefs.mentionsAny (u : PartialPrefs) : Bool :=
  u.transactional.isSome || u.taskUpdates.isSome || u.taskReminders.isSome ||
  u.keywordTaskAlerts.isSome || u.recommendedTaskAlerts.isSome ||
  u.helpfulInformation.isSome || u.updatesNewsletters.isSome

/-- `NotificationService.updatePreferences`.  Invalid user ids throw; the
record is fetched or lazily created; each supplied category is spread over
the stored one with `transactional.push` forced to `true`; the saved record
is also the returned object. -/
def updatePreferences (userId : StrArg) (u : PartialPrefs) (env : PrefEnv) :
    Except Unit Prefs :=
  if invalidUserId userId then
    .error ()
  else
    match env.stored with
    | some p => .ok (applyUpdate p u)
    | none =>
      match env.createOutcome with
      | .ok => .ok (applyUpdate defaultPrefs u)
      | .dupKey =>
        match env.refetched with
        | some p => .ok (applyUpdate p u)
        | none => if u.mentionsAny then .error () else .ok defaultPrefs
      | .otherError => .error ()

/-- Device platform (`'ios' | 'android' | 'web'`). -/
inductive Platform where
  | ios
  | android
  | web
deriving DecidableEq, Repr

/-- A stored `FCMToken` document. -/
structure TokenRec where
  userId : String
  token : String
  platform : Platform
  deviceId : Option String
  lastActive : Nat
deriving DecidableEq, Repr

/-- The device-token collection. -/
abbrev TokenStore := List TokenRec

/-- `FCMToken.find({ userId }).sort({ lastActive: -1 })`: the user's tokens,
most recently active first. -/
def getUserFCMTokens (userId : StrArg) (store : TokenStore) : List TokenRec :=
  (store.filter (fun r => userId.matchesStr r.userId)).insertionSort
    (fun a b => b.lastActive ≤ a.lastActive)

/-- Per-token outcome reported by `sendEachForMulticast`: success, or failure
with the transport's error code. -/
inductive SendOutcome where
  | success
  | failure (code : String)
deriving DecidableEq, Repr

/-- Is this outcome a success? (`resp.success`). -/
def SendOutcome.isSuccess : SendOutcome → Bool
  | .success => true
  | .failure _ => false

/-- Does this outcome carry one of the two codes the service treats as
"token permanently invalid"? -/
def SendOutcome.isInvalidToken : SendOutcome → Bool
  | .success => false
  | .failure code =>
    code = "messaging/invalid-registration-token" ||
    code = "messaging/registration-token-not-registered"

/-- Environment of one `sendPushNotification` call: the preference-store
environment for the gate, the transport's per-token outcomes (aligned with
the resolved token list), and failure switches for each fallible I/O step. -/
structure SendEnv where
  prefEnv : PrefEnv
  tokensFail : Bool
  transportFails : Bool
  outcomes : List SendOutcome
  updateFails : Bool
  deleteFails : Bool
  now : Nat

/-- Observable steps of one fan-out, recorded so that "without reading
tokens / without invoking the transport" claims are statable. -/
inductive FanoutEffect where
  | prefCheck
  | readTokens
  | transportCall
  | bulkUpdate
  | bulkDelete
deriving DecidableEq, Repr

/-- The aggregate returned by `sendPushNotification`. -/
structure SendResult where
  success : Bool
  sent : Nat
  failed : Nat
deriving DecidableEq, Repr

/-- `response.responses.map((resp, idx) => resp.success ? tokens[idx].token : null).filter(Boolean)`. -/
def successfulTokens (tokens : List TokenRec) (outcomes : List SendOutcome) : List String :=
  (tokens.zip outcomes).filterMap
    (fun p => if p.2.isSuccess then some p.1.token else none)

/-- The tokens whose outcome carries a permanently-invalid error code. -/
def invalidTokens (tokens : List TokenRec) (outcomes : List SendOutcome) : List String :=
  (tokens.zip outcomes).filterMap
    (fun p => if p.2.isInvalidToken then some p.1.token else none)

/-- `FCMToken.updateMany({ token: { $in: succ } }, { lastActive: now })`. -/
def updateLastActive (succ : List String) (now : Nat) (store : TokenStore) : TokenStore :=
  store.map (fun r => if r.token ∈ succ then { r with lastActive := now } else r)

/-- `FCMToken.deleteMany({ token: { $in: invalid } })`. -/
def deleteTokens (invalid : List String) (store : TokenStore) : TokenStore :=
  store.filter (fun r => r.token ∉ invalid)

/-- A notification payload minus `userId`
(`Omit<NotificationPayload, 'userId'>`).  The message body assembled from
`title`/`body`/`data` is opaque to the transport model (outcomes come from
the environment), so only the fields the service logic inspects are kept. -/
structure Payload where
  type : String
  title : String
  body : String
  category : Option Category
deriving DecidableEq, Repr

/-- `NotificationService.sendPushNotification`.  Returns on success the
`{success, sent, failed}` aggregate, the token store after the bulk
last-active refresh and the bulk invalid-token delete, and the trace of
observable steps.  Every exception thrown anywhere in the body (token read,
transport call, either bulk write) is caught by the single surrounding
`catch` and rethrown wrapped, modelled as `.error` carrying the store as it
stood when the exception was raised. -/
def sendPushNotification (userId : StrArg) (payload : Payload) (env : SendEnv)
    (store : TokenStore) :
    Except TokenStore (SendResult × TokenStore × List FanoutEffect) := do
  let category := payload.category.getD .taskUpdates
  let shouldSend := (shouldSendNotification userId category .push env.prefEnv).1
  if !shouldSend then
    pure ({ success := true, sent := 0, failed := 0 }, store, [.prefCheck])
  else if env.tokensFail then
    .error store
  else
    let tokens := getUserFCMTokens userId store
    if tokens.length = 0 then
      pure ({ success := true, sent := 0, failed := 0 }, store, [.prefCheck, .readTokens])
    else if env.transportFails then
      .error store
    else
      let successCount := env.outcomes.countP SendOutcome.isSuccess
      let failureCount := env.outcomes.countP (fun o => !o.isSuccess)
      let succ := successfulTokens tokens env.outcomes
      let invalid := invalidTokens tokens env.outcomes
      let store1 ←
        if succ.length > 0 then
          if env.updateFails then .error store
          else pure (updateLastActive succ env.now store)
        else pure store
      let store2 ←
        if invalid.length > 0 then
          if env.deleteFails then .error store1
          else pure (deleteTokens invalid store1)
        else pure store1
      pure ({ success := successCount > 0, sent := successCount, failed := failureCount },
        store2,
        [.prefCheck, .readTokens, .transportCall] ++
          (if succ.length > 0 then [FanoutEffect.bulkUpdate] else []) ++
          (if invalid.length > 0 then [FanoutEffect.bulkDelete] else []))

/-- The aggregate returned by `sendToMultipleUsers`. -/
structure BatchResult where
  total : Nat
  sent : Nat
  failed : Nat
deriving DecidableEq, Repr

/-- The `for (const userId of userIds)` loop of `sendToMultipleUsers`:
accumulates `totalSent`/`totalFailed`, threading the token store; a throw
from one user's dispatch adds one to `totalFailed` and the loop continues. -/
def sendLoop (userIds : List String) (payload : Payload) (envf : String → SendEnv)
    (store : TokenStore) (sentAcc failedAcc : Nat) : Nat × Nat × TokenStore :=
  match userIds with
  | [] => (sentAcc, failedAcc, store)
  | uid :: rest =>
    match sendPushNotification (.str uid) payload (envf uid) store with
    | .ok (r, store', _) => sendLoop rest payload envf store' (sentAcc + r.sent) (failedAcc + r.failed)
    | .error store' => sendLoop rest payload envf store' sentAcc (failedAcc + 1)

/-- `NotificationService.sendToMultipleUsers`. -/
def sendToMultipleUsers (userIds : List String) (payload : Payload)
    (envf : String → SendEnv) (store : TokenStore) : BatchResult × TokenStore :=
  let r := sendLoop userIds payload envf store 0 0
  ({ total := userIds.length, sent := r.1, failed := r.2.1 }, r.2.2)

/-- `NotificationService.registerToken` together with the
`FCMTokenSchema.pre('save')` hook.  If a record with this token string
exists it is updated in place (the document is not new, so the hook's
device-deduplication is skipped); otherwise the hook first deletes every
other record of the same `(userId, deviceId)` pair and the new document is
inserted. -/
def registerToken (userId token : String) (platform : Platform)
    (deviceId : Option String) (now : Nat) (store : TokenStore) :
    TokenRec × TokenStore :=
  match store.find? (fun r => r.token = token) with
  | some _ =>
    let upd := fun r =>
      if r.token = token then
        { r with userId := userId, platform := platform, deviceId := deviceId, lastActive := now }
      else r
    ({ userId := userId, token := token, platform := platform,
       deviceId := deviceId, lastActive := now }, store.map upd)
  | none =>
    let newRec : TokenRec :=
      { userId := userId, token := token, platform := platform,
        deviceId := deviceId, lastActive := now }
    let pruned :=
      match deviceId with
      | some d => store.filter (fun r => ¬(r.userId = userId ∧ r.deviceId = some d))
      | none => store
    (newRec, pruned ++ [newRec])

/-- JS truthiness of a value in a string slot: `undefined` and `''` are
falsy. -/
def truthyStr : Option String → Bool
  | none => false
  | some s => !s.isEmpty

/-- Lift a possibly-missing body field to the argument the service layer
receives (`undefined` travels as a non-string). -/
def toStrArg : Option String → StrArg
  | some s => .str s
  | none => .nonString

/-- The request body of `POST /send`
(`NotificationController.sendNotification`).  `recipients = some l` models a
body whose `recipients` key holds an array (possibly empty); `none` models
an absent, falsy or non-array value, for which
`recipients && Array.isArray(recipients)` is false.  Elements and `userId`
are `Option String` because either may be `undefined`. -/
structure SendReqBody where
  userId : Option String
  recipients : Option (List (Option String))
  type : Option String
  eventKey : Option String
  title : Option String
  bodyText : Option String
  category : Option Category
deriving DecidableEq, Repr

/-- `recipients && Array.isArray(recipients) ? recipients : [userId]`.
Note that an empty array is truthy in JS, so `recipients: []` yields an
empty target list, not `[userId]`. -/
def normalizeTargets (b : SendReqBody) : List (Option String) :=
  match b.recipients with
  | some l => l
  | none => [b.userId]

/-- `const notificationType = type || eventKey`. -/
def requestType (b : SendReqBody) : Option String :=
  if truthyStr b.type then b.type else b.eventKey

/-- The validation test of `sendNotification`:
`!targetUsers || targetUsers.length === 0 || !notificationType || !title || !body`
(the first disjunct never fires, an array is always truthy). -/
def sendRequestInvalid (b : SendReqBody) : Bool :=
  (normalizeTargets b).length = 0 || !truthyStr (requestType b) ||
    !truthyStr b.title || !truthyStr b.bodyText

/-- The per-target dispatch loop of the controller, identical in shape to
`sendLoop` but running over the normalized (possibly undefined) targets. -/
def ctrlSendLoop (targets : List (Option String)) (payload : Payload)
    (envf : Option String → SendEnv) (store : TokenStore)
    (sentAcc failedAcc : Nat) : Nat × Nat × TokenStore :=
  match targets with
  | [] => (sentAcc, failedAcc, store)
  | uid :: rest =>
    match sendPushNotification (toStrArg uid) payload (envf uid) store with
    | .ok (r, store', _) => ctrlSendLoop rest payload envf store' (sentAcc + r.sent) (failedAcc + r.failed)
    | .error store' => ctrlSendLoop rest payload envf store' sentAcc (failedAcc + 1)

/-- The HTTP-level aggregate of `POST /send`. -/
structure CtrlResponse where
  success : Bool
  sent : Nat
  failed : Nat
deriving DecidableEq, Repr

/-- `NotificationController.sendNotification`: normalize targets, accept
`type` or `eventKey`, validate, then dispatch to each target with per-target
error isolation.  Besides the `Except` result the list of targets actually
dispatched to is returned, so that "no dispatch occurs" is statable: a
validation failure returns `.error` with an empty dispatched list and an
untouched store. -/
def sendNotificationCtrl (b : SendReqBody) (envf : Option String → SendEnv)
    (store : TokenStore) :
    Except Unit CtrlResponse × List (Option String) × TokenStore :=
  if sendRequestInvalid b then
    (.error (), [], store)
  else
    let targets := normalizeTargets b
    let payload : Payload :=
      { type := (requestType b).getD "", title := b.title.getD "",
        body := b.bodyText.getD "", category := b.category }
    let r := ctrlSendLoop targets payload envf store 0 0
    (.ok { success := r.1 > 0, sent := r.1, failed := r.2.1 }, targets, r.2.2)

/-! ## Preference-layer theorems -/

/-- **C7.** For every category and channel, if the userId argument is empty,
blank (only whitespace), or not a string, `shouldSendNotification` returns
`false` (fail closed) with no preference-store access: no record is
consulted and none is created. -/
theorem shouldSend_invalidUser_failsClosed (userId : StrArg) (category : Category)
    (channel : Channel) (env : PrefEnv) (h : invalidUserId userId = true) :
    shouldSendNotification userId category channel env = (false, []) := by
  simp [shouldSendNotification, h]

/-- Witness for C7: a whitespace-only userId is rejected without store
accesses. -/
theorem shouldSend_invalidUser_failsClosed_witness :
    invalidUserId (.str " ") = true ∧
      shouldSendNotification (.str " ") .taskUpdates .push
        ⟨none, .ok, none⟩ = (false, []) :=
  ⟨by decide, shouldSend_invalidUser_failsClosed _ _ _ _ (by decide)⟩

/-- **C10.** For every userId argument that is empty, blank, or not a string,
`getPreferences` returns the full documented default preferences object,
without reading from or writing to the preference store, rather than
failing. -/
theorem getPreferences_invalidUser_defaults (userId : StrArg) (env : PrefEnv)
    (h : invalidUserId userId = true) :
    getPreferences userId env = .ok (defaultPrefs, []) := by
  simp [getPreferences, h]

/-- Witness for C10: a non-string userId gets the defaults back even when the
store would error. -/
theorem getPreferences_invalidUser_defaults_witness :
    invalidUserId .nonString = true ∧
      getPreferences .nonString ⟨none, .otherError, none⟩ = .ok (defaultPrefs, []) :=
  ⟨by decide, getPreferences_invalidUser_defaults _ _ (by decide)⟩

/-- The transactional-push invariant on a preference-store environment: every
record the store can hand back has `transactional.push = true`. -/
def PrefEnv.transPushTrue (env : PrefEnv) : Prop :=
  (∀ p, env.stored = some p → p.transactional.push = true) ∧
  (∀ p, env.refetched = some p → p.transactional.push = true)

/-- The update block can only produce `transactional.push = true` outputs,
whether the invariant came from the old record or from the forced write. -/
theorem applyUpdate_transactional_push (old : Prefs) (u : PartialPrefs)
    (h : old.transactional.push = true ∨ u.transactional.isSome = true) :
    (applyUpdate old u).transactional.push = true := by
  cases hc : u.transactional with
  | some inc => simp [applyUpdate, hc]
  | none =>
    rcases h with h | h
    · simpa [applyUpdate, hc] using h
    · simp [hc] at h

/-- **C2.** `transactional.push` cannot be disabled through
`updatePreferences`: (i) whenever the body mentions `transactional` at all —
with any supplied value for `transactional.push`, including `false` — the
saved-and-returned record has `transactional.push = true`; (ii) if every
record the store can supply already satisfies the invariant (as every record
this service creates does), any call whatsoever leaves
`transactional.push = true`; (iii) the lazily-created default record
establishes the invariant. -/
theorem updatePreferences_transactionalPush_invariant :
    (∀ u part env res, updatePreferences u part env = .ok res →
        part.transactional.isSome = true → res.transactional.push = true) ∧
    (∀ u part env res, updatePreferences u part env = .ok res →
        env.transPushTrue → res.transactional.push = true) ∧
    defaultPrefs.transactional.push = true := by
  have key : ∀ (u : StrArg) (part : PartialPrefs) (env : PrefEnv) (res : Prefs),
      updatePreferences u part env = .ok res →
      (env.transPushTrue ∨ part.transactional.isSome = true) →
      res.transactional.push = true := by
    intro u part env res h hside
    unfold updatePreferences at h
    by_cases hu : invalidUserId u = true
    · simp [hu] at h
    · simp only [hu, Bool.false_eq_true, if_false] at h
      have hside' : ∀ old, env.stored = some old ∨ env.refetched = some old →
          old.transactional.push = true ∨ part.transactional.isSome = true := by
        intro old hold
        rcases hside with ⟨h1, h2⟩ | h1
        · rcases hold with hold | hold
          · exact Or.inl (h1 old hold)
          · exact Or.inl (h2 old hold)
        · exact Or.inr h1
      cases hst : env.stored with
      | some p =>
        simp only [hst] at h
        cases h
        exact applyUpdate_transactional_push _ _ (hside' p (Or.inl hst))
      | none =>
        simp only [hst] at h
        cases hco : env.createOutcome with
        | ok =>
          simp only [hco] at h
          cases h
          apply applyUpdate_transactional_push
          rcases hside with _ | h1
          · exact Or.inl rfl
          · exact Or.inr h1
        | dupKey =>
          simp only [hco] at h
          cases hrf : env.refetched with
          | some p =>
            simp only [hrf] at h
            cases h
            exact applyUpdate_transactional_push _ _ (hside' p (Or.inr hrf))
          | none =>
            simp only [hrf] at h
            by_cases hm : part.mentionsAny = true
            · simp [hm] at h
            · simp only [hm, Bool.false_eq_true, if_false] at h
              cases h
              rfl
        | otherError => simp [hco] at h
  refine ⟨fun u part env res h hs => key u part env res h (Or.inr hs),
    fun u part env res h hinv => key u part env res h (Or.inl hinv), rfl⟩

/-- A concrete update body that tries to switch `transactional.push` off. -/
def disablePushBody : PartialPrefs where
  transactional := some { email := none, push := some false, sms := none }
  taskUpdates := none
  taskReminders := none
  keywordTaskAlerts := none
  recommendedTaskAlerts := none
  helpfulInformation := none
  updatesNewsletters := none

/-- Witness for C2: supplying `transactional.push = false` still yields a
record with `transactional.push = true`. -/
theorem updatePreferences_transactionalPush_invariant_witness :
    updatePreferences (.str "u") disablePushBody ⟨some defaultPrefs, .ok, none⟩ =
        .ok (applyUpdate defaultPrefs disablePushBody) ∧
      (applyUpdate defaultPrefs disablePushBody).transactional.push = true :=
  ⟨by rfl,
    updatePreferences_transactionalPush_invariant.1 (.str "u") disablePushBody
      ⟨some defaultPrefs, .ok, none⟩ _ (by rfl) (by decide)⟩

/-- **C3.** For a user with a stored preference record,
`shouldSendNotification (user, keywordTaskAlerts, email)` is `false`,
`shouldSendNotification (user, keywordTaskAlerts, push)` equals exactly the
stored `push` flag of the record's `keywordTaskAlerts`, and every channel
other than `push` is denied for both `keywordTaskAlerts` and
`recommendedTaskAlerts`. -/
theorem keywordAlerts_pushOnly (u : StrArg) (env : PrefEnv) (p : Prefs)
    (hu : invalidUserId u = false) (hs : env.stored = some p) :
    (shouldSendNotification u .keywordTaskAlerts .email env).1 = false ∧
    (shouldSendNotification u .keywordTaskAlerts .push env).1 = p.keywordTaskAlerts.push ∧
    (∀ ch : Channel, ch ≠ .push →
        (shouldSendNotification u .keywordTaskAlerts ch env).1 = false ∧
        (shouldSendNotification u .recommendedTaskAlerts ch env).1 = false) := by
  refine ⟨?_, ?_, ?_⟩
  · simp [shouldSendNotification, hu, hs, decideFromPrefs, categoryPrefs]
  · simp [shouldSendNotification, hu, hs, decideFromPrefs, categoryPrefs, CatPrefs.pushFlag]
  · intro ch hch
    cases ch with
    | push => exact absurd rfl hch
    | email =>
      constructor <;>
        simp [shouldSendNotification, hu, hs, decideFromPrefs, categoryPrefs]
    | sms =>
      constructor <;>
        simp [shouldSendNotification, hu, hs, decideFromPrefs, categoryPrefs]

/-- A stored record whose keyword-alert push flag is off, to exhibit that the
gate answer tracks the stored flag. -/
def kwOffPrefs : Prefs :=
  { defaultPrefs with keywordTaskAlerts := { push := false } }

/-- Witness for C3 at a concrete user and stored record. -/
theorem keywordAlerts_pushOnly_witness :
    invalidUserId (.str "u") = false ∧
      (shouldSendNotification (.str "u") .keywordTaskAlerts .email
        ⟨some kwOffPrefs, .ok, none⟩).1 = false ∧
      (shouldSendNotification (.str "u") .keywordTaskAlerts .push
        ⟨some kwOffPrefs, .ok, none⟩).1 = kwOffPrefs.keywordTaskAlerts.push ∧
      (shouldSendNotification (.str "u") .recommendedTaskAlerts .sms
        ⟨some kwOffPrefs, .ok, none⟩).1 = false :=
  ⟨by decide,
    (keywordAlerts_pushOnly (.str "u") ⟨some kwOffPrefs, .ok, none⟩ kwOffPrefs
      (by decide) rfl).1,
    (keywordAlerts_pushOnly (.str "u") ⟨some kwOffPrefs, .ok, none⟩ kwOffPrefs
      (by decide) rfl).2.1,
    ((keywordAlerts_pushOnly (.str "u") ⟨some kwOffPrefs, .ok, none⟩ kwOffPrefs
      (by decide) rfl).2.2 .sms (by decide)).2⟩

/-- **C8.** A send denied by the preference gate returns
`{sent := 0, failed := 0}` as a success (denial is not a failure), leaves the
token store untouched, and performs no token read, no transport call and no
bulk write. -/
theorem sendPush_denied_skipsEverything (userId : StrArg) (payload : Payload)
    (env : SendEnv) (store : TokenStore)
    (h : (shouldSendNotification userId (payload.category.getD .taskUpdates)
            .push env.prefEnv).1 = false) :
    sendPushNotification userId payload env store =
      .ok ({ success := true, sent := 0, failed := 0 }, store, [.prefCheck]) := by
  simp only [sendPushNotification, h, Bool.not_false, if_true]
  rfl

/-- A stored record with push disabled for `taskUpdates`. -/
def tuOffPrefs : Prefs :=
  { defaultPrefs with taskUpdates := { email := true, push := false, sms := true } }

/-- Witness for C8: with `taskUpdates.push` off the fan-out returns zero
counts and touches nothing. -/
theorem sendPush_denied_skipsEverything_witness :
    (shouldSendNotification (.str "u") ((none : Option Category).getD .taskUpdates)
        .push ⟨some tuOffPrefs, .ok, none⟩).1 = false ∧
      sendPushNotification (.str "u") ⟨"newTask", "title", "body", none⟩
        { prefEnv := ⟨some tuOffPrefs, .ok, none⟩, tokensFail := false,
          transportFails := false, outcomes := [], updateFails := false,
          deleteFails := false, now := 7 }
        [⟨"u", "tokA", .ios, none, 3⟩] =
        .ok ({ success := true, sent := 0, failed := 0 },
          [⟨"u", "tokA", .ios, none, 3⟩], [.prefCheck]) :=
  ⟨by decide,
    sendPush_denied_skipsEverything (.str "u") ⟨"newTask", "title", "body", none⟩
      _ _ (by decide)⟩

/-! ## Fan-out theorems -/

theorem updateLastActive_nil (now : Nat) (store : TokenStore) :
    updateLastActive [] now store = store := by
  simp [updateLastActive]

theorem deleteTokens_nil (store : TokenStore) :
    deleteTokens [] store = store := by
  simp [deleteTokens]

/-- Evaluation of `sendPushNotification` on the path where the gate allows,
tokens resolve non-empty, and neither the transport nor the two bulk writes
throw: the aggregate counts come from the outcome list, the store receives
the bulk last-active refresh followed by the bulk invalid-token delete. -/
theorem sendPush_happyPath (u : StrArg) (payload : Payload) (env : SendEnv)
    (store : TokenStore)
    (hgate : (shouldSendNotification u (payload.category.getD .taskUpdates)
        .push env.prefEnv).1 = true)
    (htf : env.tokensFail = false) (htr : env.transportFails = false)
    (hup : env.updateFails = false) (hdel : env.deleteFails = false)
    (hne : getUserFCMTokens u store ≠ []) :
    sendPushNotification u payload env store =
      .ok ({ success := decide (env.outcomes.countP SendOutcome.isSuccess > 0),
             sent := env.outcomes.countP SendOutcome.isSuccess,
             failed := env.outcomes.countP (fun o => !o.isSuccess) },
        deleteTokens (invalidTokens (getUserFCMTokens u store) env.outcomes)
          (updateLastActive (successfulTokens (getUserFCMTokens u store) env.outcomes)
            env.now store),
        [.prefCheck, .readTokens, .transportCall] ++
          (if (successfulTokens (getUserFCMTokens u store) env.outcomes).length > 0
            then [FanoutEffect.bulkUpdate] else []) ++
          (if (invalidTokens (getUserFCMTokens u store) env.outcomes).length > 0
            then [FanoutEffect.bulkDelete] else [])) := by
  have hlen0 : ¬(getUserFCMTokens u store).length = 0 := by
    simpa [List.length_eq_zero] using hne
  simp only [sendPushNotification, hgate, Bool.not_true, Bool.false_eq_true, if_false,
    htf, htr, hup, hdel, hlen0, if_true]
  by_cases hsucc : 0 < (successfulTokens (getUserFCMTokens u store) env.outcomes).length
  · by_cases hinv : 0 < (invalidTokens (getUserFCMTokens u store) env.outcomes).length
    · simp [hsucc, hinv, pure, Except.pure]
      rfl
    · have h0 : invalidTokens (getUserFCMTokens u store) env.outcomes = [] :=
        List.length_eq_zero.mp (Nat.eq_zero_of_not_pos hinv)
      simp [hsucc, hinv, h0, deleteTokens_nil, pure, Except.pure]
      rfl
  · have h0 : successfulTokens (getUserFCMTokens u store) env.outcomes = [] :=
      List.length_eq_zero.mp (Nat.eq_zero_of_not_pos hsucc)
    by_cases hinv : 0 < (invalidTokens (getUserFCMTokens u store) env.outcomes).length
    · simp [hsucc, hinv, h0, updateLastActive_nil, pure, Except.pure]
      rfl
    · have h1 : invalidTokens (getUserFCMTokens u store) env.outcomes = [] :=
        List.length_eq_zero.mp (Nat.eq_zero_of_not_pos hinv)
      simp [hsucc, hinv, h0, h1, updateLastActive_nil, deleteTokens_nil, pure,
        Except.pure]
      rfl

/-- The token store as it stands after a completed fan-out: the bulk
last-active refresh of the successful tokens followed by the bulk delete of
the permanently-invalid ones. -/
def fanoutFinalStore (toks : List TokenRec) (outs : List SendOutcome) (now : Nat)
    (store : TokenStore) : TokenStore :=
  deleteTokens (invalidTokens toks outs) (updateLastActive (successfulTokens toks outs) now store)

theorem SendOutcome.success_not_invalid {o : SendOutcome} (h : o.isSuccess = true) :
    o.isInvalidToken = false := by
  cases o <;> simp_all [SendOutcome.isSuccess, SendOutcome.isInvalidToken]

theorem mem_getUserFCMTokens {u : StrArg} {store : TokenStore} {t : TokenRec}
    (h : t ∈ getUserFCMTokens u store) : t ∈ store := by
  unfold getUserFCMTokens at h
  exact List.mem_of_mem_filter ((List.perm_insertionSort _ _).mem_iff.mp h)

/-- Distinct token strings in the store stay distinct through the per-user
filter and the last-active sort. -/
theorem getUserFCMTokens_token_nodup (u : StrArg) (store : TokenStore)
    (h : (store.map TokenRec.token).Nodup) :
    ((getUserFCMTokens u store).map TokenRec.token).Nodup := by
  unfold getUserFCMTokens
  have h2 : ((store.filter (fun r => u.matchesStr r.userId)).map TokenRec.token).Nodup :=
    h.sublist ((List.filter_sublist _).map _)
  exact (((List.perm_insertionSort _ _).map _).nodup_iff).mpr h2

theorem token_mem_successfulTokens {toks : List TokenRec} {outs : List SendOutcome}
    {t : TokenRec} {o : SendOutcome} (h : (t, o) ∈ toks.zip outs)
    (hs : o.isSuccess = true) : t.token ∈ successfulTokens toks outs := by
  rw [successfulTokens, List.mem_filterMap]
  exact ⟨(t, o), h, by simp [hs]⟩

theorem token_mem_invalidTokens {toks : List TokenRec} {outs : List SendOutcome}
    {t : TokenRec} {o : SendOutcome} (h : (t, o) ∈ toks.zip outs)
    (hi : o.isInvalidToken = true) : t.token ∈ invalidTokens toks outs := by
  rw [invalidTokens, List.mem_filterMap]
  exact ⟨(t, o), h, by simp [hi]⟩

/-- When the resolved token strings are pairwise distinct, a token string
identifies its zip pair uniquely. -/
theorem zip_pair_unique {toks : List TokenRec} {outs : List SendOutcome}
    (hnd : (toks.map TokenRec.token).Nodup) {t o t' o'}
    (h1 : (t, o) ∈ toks.zip outs) (h2 : (t', o') ∈ toks.zip outs)
    (ht : t'.token = t.token) : t' = t ∧ o' = o := by
  rw [List.mem_iff_getElem] at h1 h2
  obtain ⟨i, hi, hzi⟩ := h1
  obtain ⟨j, hj, hzj⟩ := h2
  have hil : i < toks.length := lt_of_lt_of_le hi (by simp [List.length_zip])
  have hjl : j < toks.length := lt_of_lt_of_le hj (by simp [List.length_zip])
  have hio : i < outs.length := lt_of_lt_of_le hi (by simp [List.length_zip])
  have hjo : j < outs.length := lt_of_lt_of_le hj (by simp [List.length_zip])
  rw [List.getElem_zip] at hzi hzj
  have hti : toks[i] = t := congrArg Prod.fst hzi
  have hoi : outs[i] = o := congrArg Prod.snd hzi
  have htj : toks[j] = t' := congrArg Prod.fst hzj
  have hoj : outs[j] = o' := congrArg Prod.snd hzj
  have hij : i = j := by
    have him : i < (toks.map TokenRec.token).length := by simpa using hil
    have hjm : j < (toks.map TokenRec.token).length := by simpa using hjl
    have hm : (toks.map TokenRec.token)[i] = (toks.map TokenRec.token)[j] := by
      simp [List.getElem_map, hti, htj, ht]
    exact hnd.getElem_inj_iff.mp hm
  subst hij
  exact ⟨hti ▸ htj.symm ▸ rfl, hoi ▸ hoj.symm ▸ rfl⟩

/-- What the two bulk writes do to each resolved token, pairwise with its
transport outcome: a success pair is re-timestamped, a permanently-invalid
pair disappears, and every other failure pair survives unchanged. -/
theorem fanout_effect_on_token (u : StrArg) (store : TokenStore)
    (outs : List SendOutcome) (now : Nat)
    (hnd : (store.map TokenRec.token).Nodup)
    {t : TokenRec} {o : SendOutcome}
    (hmem : (t, o) ∈ (getUserFCMTokens u store).zip outs) :
    (o.isSuccess = true →
      { t with lastActive := now } ∈ fanoutFinalStore (getUserFCMTokens u store) outs now store) ∧
    (o.isInvalidToken = true →
      ∀ q ∈ fanoutFinalStore (getUserFCMTokens u store) outs now store, q.token ≠ t.token) ∧
    (o.isSuccess = false → o.isInvalidToken = false →
      t ∈ fanoutFinalStore (getUserFCMTokens u store) outs now store) := by
  have hndt : ((getUserFCMTokens u store).map TokenRec.token).Nodup :=
    getUserFCMTokens_token_nodup u store hnd
  have hts : t ∈ store := mem_getUserFCMTokens (List.of_mem_zip hmem).1
  refine ⟨?_, ?_, ?_⟩
  · intro hs
    have h1 : t.token ∈ successfulTokens (getUserFCMTokens u store) outs :=
      token_mem_successfulTokens hmem hs
    have h2 : t.token ∉ invalidTokens (getUserFCMTokens u store) outs := by
      intro hc
      rw [invalidTokens, List.mem_filterMap] at hc
      obtain ⟨⟨t', o'⟩, hp, hcond⟩ := hc
      have hio : o'.isInvalidToken = true := by
        by_contra hno
        simp [Bool.not_eq_true] at hno
        simp [hno] at hcond
      have htok : t'.token = t.token := by
        simp [hio] at hcond
        exact hcond
      obtain ⟨-, ho⟩ := zip_pair_unique hndt hmem hp htok
      rw [ho] at hio
      rw [SendOutcome.success_not_invalid hs] at hio
      exact Bool.false_ne_true hio
    have hmap : { t with lastActive := now } ∈
        updateLastActive (successfulTokens (getUserFCMTokens u store) outs) now store := by
      rw [updateLastActive]
      exact List.mem_map.mpr ⟨t, hts, by simp [h1]⟩
    rw [fanoutFinalStore, deleteTokens]
    exact List.mem_filter.mpr ⟨hmap, by simpa using h2⟩
  · intro hi q hq
    have h3 : t.token ∈ invalidTokens (getUserFCMTokens u store) outs :=
      token_mem_invalidTokens hmem hi
    rw [fanoutFinalStore, deleteTokens] at hq
    have hqn : q.token ∉ invalidTokens (getUserFCMTokens u store) outs := by
      simpa using (List.mem_filter.mp hq).2
    intro hcontra
    exact hqn (hcontra ▸ h3)
  · intro hns hni
    have h1 : t.token ∉ successfulTokens (getUserFCMTokens u store) outs := by
      intro hc
      rw [successfulTokens, List.mem_filterMap] at hc
      obtain ⟨⟨t', o'⟩, hp, hcond⟩ := hc
      have hso : o'.isSuccess = true := by
        by_contra hno
        simp [Bool.not_eq_true] at hno
        simp [hno] at hcond
      have htok : t'.token = t.token := by
        simp [hso] at hcond
        exact hcond
      obtain ⟨-, ho⟩ := zip_pair_unique hndt hmem hp htok
      rw [ho, hns] at hso
      exact Bool.false_ne_true hso
    have h2 : t.token ∉ invalidTokens (getUserFCMTokens u store) outs := by
      intro hc
      rw [invalidTokens, List.mem_filterMap] at hc
      obtain ⟨⟨t', o'⟩, hp, hcond⟩ := hc
      have hio : o'.isInvalidToken = true := by
        by_contra hno
        simp [Bool.not_eq_true] at hno
        simp [hno] at hcond
      have htok : t'.token = t.token := by
        simp [hio] at hcond
        exact hcond
      obtain ⟨-, ho⟩ := zip_pair_unique hndt hmem hp htok
      rw [ho, hni] at hio
      exact Bool.false_ne_true hio
    have hmap : t ∈
        updateLastActive (successfulTokens (getUserFCMTokens u store) outs) now store := by
      rw [updateLastActive]
      exact List.mem_map.mpr ⟨t, hts, by simp [h1]⟩
    rw [fanoutFinalStore, deleteTokens]
    exact List.mem_filter.mpr ⟨hmap, by simpa using h2⟩

/-- **C1.** On a send whose preference check allows it and that resolves a
non-empty token list, with the transport's per-token outcomes in hand and no
storage fault: the returned aggregate has `sent` = number of success
outcomes and `failed` = number of failure outcomes regardless of cause, and
in the resulting store every token paired with a success outcome is
refreshed to the current time, every token paired with a
permanently-invalid failure code is deleted, and every token paired with
any other failure outcome is left untouched. -/
theorem sendPush_outcome_accounting (u : StrArg) (payload : Payload) (env : SendEnv)
    (store : TokenStore)
    (hgate : (shouldSendNotification u (payload.category.getD .taskUpdates)
        .push env.prefEnv).1 = true)
    (htf : env.tokensFail = false) (htr : env.transportFails = false)
    (hup : env.updateFails = false) (hdel : env.deleteFails = false)
    (hne : getUserFCMTokens u store ≠ [])
    (_hlen : env.outcomes.length = (getUserFCMTokens u store).length)
    (hnd : (store.map TokenRec.token).Nodup) :
    sendPushNotification u payload env store =
      .ok ({ success := decide (env.outcomes.countP SendOutcome.isSuccess > 0),
             sent := env.outcomes.countP SendOutcome.isSuccess,
             failed := env.outcomes.countP (fun o => !o.isSuccess) },
        fanoutFinalStore (getUserFCMTokens u store) env.outcomes env.now store,
        [.prefCheck, .readTokens, .transportCall] ++
          (if (successfulTokens (getUserFCMTokens u store) env.outcomes).length > 0
            then [FanoutEffect.bulkUpdate] else []) ++
          (if (invalidTokens (getUserFCMTokens u store) env.outcomes).length > 0
            then [FanoutEffect.bulkDelete] else [])) ∧
    (∀ t o, (t, o) ∈ (getUserFCMTokens u store).zip env.outcomes →
      (o.isSuccess = true →
        { t with lastActive := env.now } ∈
          fanoutFinalStore (getUserFCMTokens u store) env.outcomes env.now store) ∧
      (o.isInvalidToken = true →
        ∀ q ∈ fanoutFinalStore (getUserFCMTokens u store) env.outcomes env.now store,
          q.token ≠ t.token) ∧
      (o.isSuccess = false → o.isInvalidToken = false →
        t ∈ fanoutFinalStore (getUserFCMTokens u store) env.outcomes env.now store)) := by
  refine ⟨?_, fun t o hmem => fanout_effect_on_token u store env.outcomes env.now hnd hmem⟩
  have h := sendPush_happyPath u payload env store hgate htf htr hup hdel hne
  rw [h]
  rfl

/-- Three registered devices of user `u`, most recently active first. -/
def c1Store : TokenStore :=
  [⟨"u", "tokA", .ios, none, 30⟩, ⟨"u", "tokB", .android, none, 20⟩,
   ⟨"u", "tokC", .web, none, 10⟩]

/-- A transport round where the three tokens come back success,
transient failure, permanently invalid, in resolution order. -/
def c1Env : SendEnv where
  prefEnv := ⟨some defaultPrefs, .ok, none⟩
  tokensFail := false
  transportFails := false
  outcomes := [.success, .failure "messaging/internal-error",
    .failure "messaging/registration-token-not-registered"]
  updateFails := false
  deleteFails := false
  now := 99

def c1Payload : Payload := ⟨"newTask", "title", "body", none⟩

/-- Witness for C1, instantiating the spec's 3-token scenario: the result is
`{sent := 1, failed := 2}`, exactly the successful token is refreshed,
exactly the permanently-invalid one is deleted, and the transient-failure
token is untouched. -/
theorem sendPush_outcome_accounting_witness :
    (c1Store.map TokenRec.token).Nodup ∧
    c1Env.outcomes.length = (getUserFCMTokens (.str "u") c1Store).length ∧
    sendPushNotification (.str "u") c1Payload c1Env c1Store =
      .ok ({ success := true, sent := 1, failed := 2 },
        [⟨"u", "tokA", .ios, none, 99⟩, ⟨"u", "tokB", .android, none, 20⟩],
        [.prefCheck, .readTokens, .transportCall, .bulkUpdate, .bulkDelete]) := by
  refine ⟨by decide, by decide, ?_⟩
  have h := (sendPush_outcome_accounting (.str "u") c1Payload c1Env c1Store
    (by decide) rfl rfl rfl rfl (by decide) (by decide) (by decide)).1
  rw [h]
  rfl

/-- A single registered device of user `v`. -/
def c5Store : TokenStore := [⟨"v", "tokV", .ios, none, 5⟩]

def c5Payload : Payload := ⟨"newTask", "t", "b", none⟩

/-- A round where the transport reports success for the one token but the
subsequent bulk last-active update throws. -/
def c5Env : SendEnv where
  prefEnv := ⟨some defaultPrefs, .ok, none⟩
  tokensFail := false
  transportFails := false
  outcomes := [.success]
  updateFails := true
  deleteFails := false
  now := 50

/-- Counterexample to C5 as stated: the whole body of
`sendPushNotification` sits in one try/catch that wraps and rethrows, so an
exception in the post-transport bulk update does mask the already-computed
result — the call propagates a dispatch failure instead of returning the
counts, which the identical environment without the fault would have
returned as `{sent := 1, failed := 0}`. -/
theorem sendPush_cleanupError_counterexample :
    sendPushNotification (.str "v") c5Payload c5Env c5Store = .error c5Store ∧
    sendPushNotification (.str "v") c5Payload { c5Env with updateFails := false } c5Store =
      .ok ({ success := true, sent := 1, failed := 0 },
        [⟨"v", "tokV", .ios, none, 50⟩],
        [.prefCheck, .readTokens, .transportCall, .bulkUpdate]) := by
  constructor <;> rfl

/-- **C5 (amended).** An exception raised during the post-transport
last-active bulk update or invalid-token bulk delete is caught by the same
wrapper as every earlier exception and propagates as a dispatch failure to
the caller, discarding the already-computed `{sent, failed}` counts; the
counts are returned only when both cleanup writes succeed. -/
theorem sendPush_cleanupError_propagates (u : StrArg) (payload : Payload) (env : SendEnv)
    (store : TokenStore)
    (hgate : (shouldSendNotification u (payload.category.getD .taskUpdates)
        .push env.prefEnv).1 = true)
    (htf : env.tokensFail = false) (htr : env.transportFails = false)
    (hne : getUserFCMTokens u store ≠ []) :
    (env.updateFails = true →
      0 < (successfulTokens (getUserFCMTokens u store) env.outcomes).length →
      sendPushNotification u payload env store = .error store) ∧
    (env.updateFails = false → env.deleteFails = true →
      0 < (invalidTokens (getUserFCMTokens u store) env.outcomes).length →
      sendPushNotification u payload env store =
        .error (updateLastActive (successfulTokens (getUserFCMTokens u store) env.outcomes)
          env.now store)) := by
  have hlen0 : ¬(getUserFCMTokens u store).length = 0 := by
    simpa [List.length_eq_zero] using hne
  constructor
  · intro hup hsucc
    simp only [sendPushNotification, hgate, Bool.not_true, Bool.false_eq_true, if_false,
      htf, htr, hup, hlen0, if_true]
    simp [hsucc]
    rfl
  · intro hup hdel hinv
    simp only [sendPushNotification, hgate, Bool.not_true, Bool.false_eq_true, if_false,
      htf, htr, hup, hdel, hlen0, if_true]
    by_cases hsucc : 0 < (successfulTokens (getUserFCMTokens u store) env.outcomes).length
    · simp [hsucc, hinv, pure, Except.pure]
      rfl
    · have h0 : successfulTokens (getUserFCMTokens u store) env.outcomes = [] :=
        List.length_eq_zero.mp (Nat.eq_zero_of_not_pos hsucc)
      simp [hsucc, hinv, h0, updateLastActive_nil, pure, Except.pure]
      rfl

/-- Witness for the amended C5 at the concrete one-token scenario. -/
theorem sendPush_cleanupError_propagates_witness :
    0 < (successfulTokens (getUserFCMTokens (.str "v") c5Store) c5Env.outcomes).length ∧
    sendPushNotification (.str "v") c5Payload c5Env c5Store = .error c5Store :=
  ⟨by decide, (sendPush_cleanupError_propagates (.str "v") c5Payload c5Env c5Store
      (by decide) rfl rfl (by decide)).1 rfl (by decide)⟩

/-! ## Batch theorems -/

/-- The batch loop's accumulators merely shift the result. -/
theorem sendLoop_acc (userIds : List String) (payload : Payload) (envf : String → SendEnv)
    (store : TokenStore) (a b : Nat) :
    sendLoop userIds payload envf store a b =
      ((sendLoop userIds payload envf store 0 0).1 + a,
       (sendLoop userIds payload envf store 0 0).2.1 + b,
       (sendLoop userIds payload envf store 0 0).2.2) := by
  induction userIds generalizing store a b with
  | nil => simp [sendLoop]
  | cons uid rest ih =>
    cases h : sendPushNotification (.str uid) payload (envf uid) store with
    | ok x =>
      obtain ⟨r, store', effs⟩ := x
      simp only [sendLoop, h]
      rw [ih store' (a + r.sent) (b + r.failed), ih store' (0 + r.sent) (0 + r.failed)]
      simp only [Prod.mk.injEq]
      exact ⟨by omega, by omega, trivial⟩
    | error store' =>
      simp only [sendLoop, h]
      rw [ih store' a (b + 1), ih store' 0 (0 + 1)]
      simp only [Prod.mk.injEq]
      exact ⟨by omega, by omega, trivial⟩

/-- One step of the batch: a normal per-user result adds its own `sent` and
`failed` to the totals of the remaining users; a throw adds exactly one
`failed`; either way the remaining users are still processed (on the store
the failed dispatch left behind). -/
theorem sendToMultipleUsers_cons (uid : String) (rest : List String) (payload : Payload)
    (envf : String → SendEnv) (store : TokenStore) :
    sendToMultipleUsers (uid :: rest) payload envf store =
      match sendPushNotification (.str uid) payload (envf uid) store with
      | .ok (r, store', _) =>
        ({ total := rest.length + 1,
           sent := (sendToMultipleUsers rest payload envf store').1.sent + r.sent,
           failed := (sendToMultipleUsers rest payload envf store').1.failed + r.failed },
         (sendToMultipleUsers rest payload envf store').2)
      | .error store' =>
        ({ total := rest.length + 1,
           sent := (sendToMultipleUsers rest payload envf store').1.sent,
           failed := (sendToMultipleUsers rest payload envf store').1.failed + 1 },
         (sendToMultipleUsers rest payload envf store').2) := by
  cases h : sendPushNotification (.str uid) payload (envf uid) store with
  | ok x =>
    obtain ⟨r, store', effs⟩ := x
    simp only [sendToMultipleUsers, sendLoop, h]
    rw [sendLoop_acc rest payload envf store' (0 + r.sent) (0 + r.failed)]
    simp [Prod.mk.injEq, List.length_cons]
  | error store' =>
    simp only [sendToMultipleUsers, sendLoop, h]
    rw [sendLoop_acc rest payload envf store' 0 (0 + 1)]
    simp [Prod.mk.injEq, List.length_cons]

/-- The tokens of the two reachable users in the batch counterexample run. -/
def c4Store : TokenStore :=
  [⟨"a", "tokA2", .ios, none, 1⟩, ⟨"c", "tokC2", .web, none, 2⟩]

/-- A healthy per-user environment: gate allows, one successful delivery. -/
def c4EnvOk : SendEnv where
  prefEnv := ⟨some defaultPrefs, .ok, none⟩
  tokensFail := false
  transportFails := false
  outcomes := [.success]
  updateFails := false
  deleteFails := false
  now := 10

/-- User `b`'s dispatch throws (the token read fails); everyone else is
healthy. -/
def c4Envf : String → SendEnv := fun uid =>
  if uid = "b" then { c4EnvOk with tokensFail := true } else c4EnvOk

def c4Payload : Payload := ⟨"evt", "ti", "bo", none⟩

/-- **C4.** `sendToMultipleUsers` returns `total = userIds.length` regardless
of outcomes; its `sent`/`failed` are the sums of the per-user results, a
thrown per-user dispatch contributing exactly one `failed` while processing
continues with the remaining users; and on `["a","b","c"]` with `b`
throwing, the result is `total = 3` with exactly one failure attributable
to `b` while `a` and `c` are processed normally. -/
theorem sendToMany_totals_and_isolation :
    (∀ (userIds : List String) (payload : Payload) (envf : String → SendEnv)
        (store : TokenStore),
      (sendToMultipleUsers userIds payload envf store).1.total = userIds.length) ∧
    (∀ (uid : String) (rest : List String) (payload : Payload)
        (envf : String → SendEnv) (store : TokenStore),
      sendToMultipleUsers (uid :: rest) payload envf store =
        match sendPushNotification (.str uid) payload (envf uid) store with
        | .ok (r, store', _) =>
          ({ total := rest.length + 1,
             sent := (sendToMultipleUsers rest payload envf store').1.sent + r.sent,
             failed := (sendToMultipleUsers rest payload envf store').1.failed + r.failed },
           (sendToMultipleUsers rest payload envf store').2)
        | .error store' =>
          ({ total := rest.length + 1,
             sent := (sendToMultipleUsers rest payload envf store').1.sent,
             failed := (sendToMultipleUsers rest payload envf store').1.failed + 1 },
           (sendToMultipleUsers rest payload envf store').2)) ∧
    sendToMultipleUsers ["a", "b", "c"] c4Payload c4Envf c4Store =
      ({ total := 3, sent := 2, failed := 1 },
       [⟨"a", "tokA2", .ios, none, 10⟩, ⟨"c", "tokC2", .web, none, 10⟩]) := by
  refine ⟨fun userIds payload envf store => rfl,
    fun uid rest payload envf store => sendToMultipleUsers_cons uid rest payload envf store,
    by decide⟩

/-! ## Registration theorems -/

/-- A registry where token `tok2` already belongs to another user's
device. -/
def c9Store : TokenStore := [⟨"w", "tok2", .ios, some "dw", 0⟩]

/-- Counterexample to C9 as universally stated: registering `tok1` and then
`tok2` for the same `(u, d)` pair leaves two live records for that pair
when `tok2` was already registered elsewhere — the second registration
takes the update-in-place path, whose saved document is not new, so the
pre-save device-deduplication hook never runs. -/
theorem registerToken_secondToken_counterexample :
    ((registerToken "u" "tok2" .android (some "d") 2
        (registerToken "u" "tok1" .android (some "d") 1 c9Store).2).2.filter
      (fun r => r.userId = "u" ∧ r.deviceId = some "d")).length = 2 := by
  decide

/-- **C9 (amended).** When the registered token string is new to the
registry, saving it runs the pre-save device-deduplication hook: afterwards
exactly one record exists for the `(userId, deviceId)` pair, and it carries
the new token string.  (A token string that already exists is instead
re-pointed in place with no deduplication, as the counterexample
exhibits.) -/
theorem registerToken_device_dedup (u tok : String) (p : Platform) (d : String)
    (now : Nat) (store : TokenStore)
    (hfresh : store.find? (fun r => r.token = tok) = none) :
    (registerToken u tok p (some d) now store).2.filter
        (fun r => r.userId = u ∧ r.deviceId = some d) =
      [⟨u, tok, p, some d, now⟩] := by
  simp only [registerToken, hfresh]
  rw [List.filter_append]
  have h1 : (store.filter (fun r => ¬(r.userId = u ∧ r.deviceId = some d))).filter
      (fun r => r.userId = u ∧ r.deviceId = some d) = [] := by
    rw [List.filter_filter]
    apply List.filter_eq_nil_iff.mpr
    intro a _
    by_cases hq : a.userId = u ∧ a.deviceId = some d <;> simp [hq]
  rw [h1]
  simp

/-- Witness for the amended C9: two consecutive registrations of fresh,
different tokens for the same `(userId, deviceId)` pair leave exactly one
record, carrying the latest token string. -/
theorem registerToken_device_dedup_witness :
    ((registerToken "u" "tok1" .android (some "d") 1 []).2.find?
        (fun r => r.token = "tok2") = none) ∧
    (registerToken "u" "tok2" .android (some "d") 2
        (registerToken "u" "tok1" .android (some "d") 1 []).2).2.filter
        (fun r => r.userId = "u" ∧ r.deviceId = some "d") =
      [⟨"u", "tok2", .android, some "d", 2⟩] :=
  ⟨by decide, registerToken_device_dedup "u" "tok2" .android "d" 2 _ (by decide)⟩

/-! ## Controller theorems -/

/-- Counterexample body for C6: `recipients` present but empty, alongside a
usable `userId` and all other required fields. -/
def c6Body : SendReqBody where
  userId := some "a"
  recipients := some []
  type := some "t"
  eventKey := none
  title := some "x"
  bodyText := some "y"
  category := none

def c6Envf : Option String → SendEnv := fun _ => c4EnvOk

/-- Counterexample to C6 as stated: with `recipients` present but empty the
controller normalizes the target list to the empty list — an empty array is
truthy, so `recipients && Array.isArray(recipients)` selects it — not to
`[userId]`; the request then fails validation and nothing is dispatched,
despite the valid `userId`, type, title and body. -/
theorem sendCtrl_emptyRecipients_counterexample :
    normalizeTargets c6Body = [] ∧
    c6Body.userId = some "a" ∧
    truthyStr (requestType c6Body) = true ∧
    truthyStr c6Body.title = true ∧
    truthyStr c6Body.bodyText = true ∧
    sendNotificationCtrl c6Body c6Envf [] = (.error (), [], []) :=
  ⟨rfl, rfl, rfl, rfl, rfl, rfl⟩

/-- **C6 (amended).** The single-send entry point normalizes the target list
to `recipients` whenever `recipients` is present as an array — including the
empty array, which then fails target validation — and to `[userId]` only
when `recipients` is absent or not an array; `type` and `eventKey` are
accepted interchangeably as the type tag (`type` when truthy, else
`eventKey`); and whenever the normalized target list is empty, or the type
tag, title, or body is missing or empty, the request fails validation and
no dispatch to any user occurs. -/
theorem sendCtrl_normalization_validation :
    (∀ (b : SendReqBody) (l : List (Option String)),
      b.recipients = some l → normalizeTargets b = l) ∧
    (∀ b : SendReqBody, b.recipients = none → normalizeTargets b = [b.userId]) ∧
    (∀ b : SendReqBody, truthyStr b.type = true → requestType b = b.type) ∧
    (∀ b : SendReqBody, truthyStr b.type = false → requestType b = b.eventKey) ∧
    (∀ (b : SendReqBody) (envf : Option String → SendEnv) (store : TokenStore),
      ((normalizeTargets b).length = 0 ∨ truthyStr (requestType b) = false ∨
        truthyStr b.title = false ∨ truthyStr b.bodyText = false) →
      sendNotificationCtrl b envf store = (.error (), [], store)) := by
  refine ⟨?_, ?_, ?_, ?_, ?_⟩
  · intro b l h
    simp [normalizeTargets, h]
  · intro b h
    simp [normalizeTargets, h]
  · intro b h
    simp [requestType, h]
  · intro b h
    simp [requestType, h]
  · intro b envf store h
    have hinv : sendRequestInvalid b = true := by
      rcases h with h | h | h | h <;> simp [sendRequestInvalid, h]
    simp [sendNotificationCtrl, hinv]

/-- A body missing its `body` text, to exercise the validation branch of the
amended C6. -/
def c6Body2 : SendReqBody where
  userId := some "a"
  recipients := none
  type := none
  eventKey := some "evt"
  title := some "x"
  bodyText := none
  category := none

/-- Witness for the amended C6: a request with a missing body text fails
validation with no dispatched targets and an untouched store. -/
theorem sendCtrl_normalization_validation_witness :
    truthyStr c6Body2.bodyText = false ∧
    sendNotificationCtrl c6Body2 c6Envf c4Store = (.error (), [], c4Store) :=
  ⟨by decide,
    sendCtrl_normalization_validation.2.2.2.2 c6Body2 c6Envf c4Store
      (Or.inr (Or.inr (Or.inr (by decide))))⟩

end NotifService
